import Mathlib

/-!
Verification development for the Free Documents Report subsystem
(juriscraper/pacer/free_documents.py).

The Python code is shallowly embedded: lxml elements are modelled by the
observations the code extracts from them via xpath, Python exceptions are
modelled with an explicit `Except` error type, and the external collaborator
helpers (juriscraper.lib / juriscraper.pacer.utils / stdlib re / dateutil),
which are outside this source tree, are passed in as an abstract `Collab`
record of functions.
-/

/-- Model of the Python exceptions the embedded code can raise. -/
inductive PyErr where
  | indexError
  | keyError (k : String)
  | typeError
  | valueError
  | httpError
  deriving Repr, DecidableEq

/-- Model of a `<td>` cell of a result-table row: the observations that the
xpath queries in FreeOpinionRow extract from the cell.
`hrefs` models the nodes returned by the xpath fragment for all descendant
href attributes; `anchor_texts` the text nodes of descendant anchors;
`bold_texts` the text content of each descendant bold element; `texts` all
descendant text nodes; `text_content` the full text content of the cell;
`nos_tails` (resp. `cause_tails`) the tail text of each direct child italic
element whose text contains the marker NOS (resp. Cause). -/
structure TdCell where
  hrefs : List String
  anchor_texts : List String
  bold_texts : List String
  texts : List String
  text_content : String
  nos_tails : List String
  cause_tails : List String
  deriving Repr, DecidableEq

/-- Model of a table row element: its list of direct `<td>` children, in
document order. Every xpath the row parser runs goes through these cells. -/
abbrev RowElem := List TdCell

/-- Model of a Python value stored in a dictionary produced by this code. -/
inductive PyValue where
  | str (s : String)
  | num (n : Nat)
  | pynone
  | elem (e : List TdCell)
  | dict (d : List (String × PyValue))
  deriving Repr

/-- Model of a Python dictionary with string keys. -/
abbrev PyDict := List (String × PyValue)

/-- Model of Python list indexing `l[i]` for nonnegative `i`: the element, or
an IndexError when the index is out of range. -/
def pyIndex {α : Type} (l : List α) (i : Nat) : Except PyErr α :=
  match l.get? i with
  | some a => Except.ok a
  | none => Except.error PyErr.indexError

/-- Model of Python dictionary lookup `d[k]`: the stored value, or a KeyError
when the key is absent (as for the empty dictionary passed for the first row). -/
def dictGet (d : PyDict) (k : String) : Except PyErr PyValue :=
  match d.find? (fun kv => kv.1 = k) with
  | some kv => Except.ok kv.2
  | none => Except.error (PyErr.keyError k)

/-- Model of the Python string method strip(): remove whitespace from both
ends. Implemented structurally over the character list so that it reduces in
the kernel. -/
def pyStrip (s : String) : String :=
  String.mk (((s.data.dropWhile Char.isWhitespace).reverse.dropWhile
    Char.isWhitespace).reverse)

/-- Helper for the Python split with maxsplit one on a space: scan for the
first space character; if found, the part before it and the untouched rest,
else the whole input as a single piece. -/
def pySplitSpaceOnceAux : List Char → List Char → List String
  | [], acc => [String.mk acc.reverse]
  | ch :: rest, acc =>
      if ch = ' ' then [String.mk acc.reverse, String.mk rest]
      else pySplitSpaceOnceAux rest (ch :: acc)

/-- Model of the Python expression `s.split(' ', 1)`. -/
def pySplitSpaceOnce (s : String) : List String :=
  pySplitSpaceOnceAux s.data []

/-- Decimal value of a nonempty all-digit character list, else none. -/
def pyDigitsVal (l : List Char) : Option Nat :=
  match l with
  | [] => none
  | _ =>
      if l.all Char.isDigit then
        some (l.foldl (fun acc c => 10 * acc + (c.toNat - 48)) 0)
      else none

/-- Model of Python `int(s)`: surrounding whitespace is allowed, then an
optional sign followed by at least one digit; anything else is a ValueError. -/
def pyInt (s : String) : Except PyErr Int :=
  let t := ((s.data.dropWhile Char.isWhitespace).reverse.dropWhile
    Char.isWhitespace).reverse
  let core : Option Int :=
    match t with
    | '-' :: ds => (pyDigitsVal ds).map (fun n => -(n : Int))
    | '+' :: ds => (pyDigitsVal ds).map (fun n => (n : Int))
    | ds => (pyDigitsVal ds).map (fun n => (n : Int))
  match core with
  | some v => Except.ok v
  | none => Except.error PyErr.valueError

/-- Model of the xpath `./td[n]` (one-based `n`) on a row element: a singleton
node list when the cell exists, else the empty node list. -/
def td_xpath (element : RowElem) (n : Nat) : List TdCell :=
  match element.get? (n - 1) with
  | some td => [td]
  | none => []

/-- Model of a composite xpath `./td[n]//X` selecting a node list inside the
nth cell (one-based): the selected list when the cell exists, else empty. -/
def td_xpath_lists (element : RowElem) (n : Nat) (f : TdCell → List String) : List String :=
  match element.get? (n - 1) with
  | some td => f td
  | none => []

/-- Modelled from the spec: the consumed collaborator interfaces of section 6
(date-string interpreter, case and document identifier extractors from URLs,
court id resolution from a URL, the per-jurisdiction TLS verification policy),
plus the regex search of the token pattern (Python re stdlib) returning the
captured group or None, and the date formatting mm/dd/yyyy of a day ordinal
(datetime strftime). These live outside this source tree and no claim depends
on their internals, so they are abstract function parameters. -/
structure Collab where
  get_pacer_case_id_from_docket_url : String → String
  get_pacer_document_number_from_doc1_url : String → String
  convert_date_string : String → String
  get_court_id_from_url : String → String
  verify_court_ssl : String → Bool
  re_search_wrtoprpt : String → Option String
  strftime_mdY : Nat → String

/-- Model of FreeOpinionRow.get_column_count: the number of direct td
children of the row. -/
def get_column_count (element : RowElem) : Nat := element.length

/-- Model of FreeOpinionRow.get_pacer_case_id: first descendant href of the
first cell fed to the extractor helper; on IndexError (blank cell) the value
is inherited from the last good row dictionary. -/
def get_pacer_case_id (c : Collab) (element : RowElem) (last_good_row : PyDict) :
    Except PyErr PyValue :=
  match pyIndex (td_xpath_lists element 1 TdCell.hrefs) 0 with
  | Except.error PyErr.indexError => dictGet last_good_row "pacer_case_id"
  | Except.error e => Except.error e
  | Except.ok docket_url =>
      Except.ok (PyValue.str (c.get_pacer_case_id_from_docket_url docket_url))

/-- Model of FreeOpinionRow.get_docket_number: the first anchor text of the
first cell; under the four-column style (count 4, or court areb or arwb) the
part before the first space; on IndexError inherited from the last good row. -/
def get_docket_number (element : RowElem) (court_id : String) (column_count : Nat)
    (last_good_row : PyDict) : Except PyErr PyValue :=
  match pyIndex (td_xpath_lists element 1 TdCell.anchor_texts) 0 with
  | Except.error PyErr.indexError => dictGet last_good_row "docket_number"
  | Except.error e => Except.error e
  | Except.ok s =>
      if column_count = 4 ∨ court_id ∈ (["areb", "arwb"] : List String) then
        (pyIndex (pySplitSpaceOnce s) 0).map PyValue.str
      else
        Except.ok (PyValue.str s)

/-- Model of FreeOpinionRow.get_case_name. The first cell is selected (an
uncaught IndexError when the row has no cell). Under the four-column style the
stripped text content is split at the first space and the part after it is the
case name (an uncaught IndexError when there is no space), with inheritance
from the last good row when the stripped text is empty. Under the five-column
style the text of the first bold descendant is used, with inheritance on
IndexError. -/
def get_case_name (element : RowElem) (court_id : String) (column_count : Nat)
    (last_good_row : PyDict) : Except PyErr PyValue :=
  match pyIndex (td_xpath element 1) 0 with
  | Except.error e => Except.error e
  | Except.ok cell =>
      if column_count = 4 ∨ court_id ∈ (["areb", "arwb"] : List String) then
        let s := pyStrip cell.text_content
        if s ≠ "" then
          (pyIndex (pySplitSpaceOnce s) 1).map PyValue.str
        else
          dictGet last_good_row "case_name"
      else
        match pyIndex cell.bold_texts 0 with
        | Except.error PyErr.indexError => dictGet last_good_row "case_name"
        | Except.error e => Except.error e
        | Except.ok b => Except.ok (PyValue.str b)

/-- Model of FreeOpinionRow.get_case_date: the first text node of the second
cell, interpreted by the date-string collaborator. -/
def get_case_date (c : Collab) (element : RowElem) : Except PyErr PyValue :=
  (pyIndex (td_xpath_lists element 2 TdCell.texts) 0).map
    (fun t => PyValue.str (c.convert_date_string t))

/-- Model of FreeOpinionRow.get_pacer_document_number: the first descendant
href of the third cell fed to the document-number extractor helper. -/
def get_pacer_document_number (c : Collab) (element : RowElem) : Except PyErr PyValue :=
  (pyIndex (td_xpath_lists element 3 TdCell.hrefs) 0).map
    (fun u => PyValue.str (c.get_pacer_document_number_from_doc1_url u))

/-- Model of FreeOpinionRow.get_document_number: the first text node of the
third cell. -/
def get_document_number (element : RowElem) : Except PyErr PyValue :=
  (pyIndex (td_xpath_lists element 3 TdCell.texts) 0).map PyValue.str

/-- Model of FreeOpinionRow.get_description: the text content of the fourth
cell. -/
def get_description (element : RowElem) : Except PyErr PyValue :=
  (pyIndex (td_xpath element 4) 0).map (fun td => PyValue.str td.text_content)

/-- Model of FreeOpinionRow.get_nos: None when the column count is 4; else the
stripped tail of the first italic child of the fifth cell whose text contains
the NOS marker, or None on IndexError. -/
def get_nos (element : RowElem) (column_count : Nat) : Except PyErr PyValue :=
  if column_count = 4 then Except.ok PyValue.pynone
  else
    match pyIndex (td_xpath_lists element 5 TdCell.nos_tails) 0 with
    | Except.error PyErr.indexError => Except.ok PyValue.pynone
    | Except.error e => Except.error e
    | Except.ok t => Except.ok (PyValue.str (pyStrip t))

/-- Model of FreeOpinionRow.get_cause: None when the column count is 4; else
the stripped tail of the first italic child of the fifth cell whose text
contains the Cause marker, or None on IndexError. -/
def get_cause (element : RowElem) (column_count : Nat) : Except PyErr PyValue :=
  if column_count = 4 then Except.ok PyValue.pynone
  else
    match pyIndex (td_xpath_lists element 5 TdCell.cause_tails) 0 with
    | Except.error PyErr.indexError => Except.ok PyValue.pynone
    | Except.error e => Except.error e
    | Except.ok t => Except.ok (PyValue.str (pyStrip t))

/-- Model of the parsed-data attributes a FreeOpinionRow object carries after
construction (the element and last_good_row attributes are kept separately). -/
structure FreeOpinionRow where
  court_id : String
  column_count : Nat
  pacer_case_id : PyValue
  docket_number : PyValue
  case_name : PyValue
  case_date : PyValue
  pacer_document_number : PyValue
  document_number : PyValue
  description : PyValue
  nature_of_suit : PyValue
  cause : PyValue
  deriving Repr

/-- Model of the FreeOpinionRow constructor: run the getters in the attribute
assignment order of the source; the first raised exception aborts the row. -/
def free_opinion_row (c : Collab) (element : RowElem) (last_good_row : PyDict)
    (court_id : String) : Except PyErr FreeOpinionRow := do
  let column_count := get_column_count element
  let pacer_case_id ← get_pacer_case_id c element last_good_row
  let docket_number ← get_docket_number element court_id column_count last_good_row
  let case_name ← get_case_name element court_id column_count last_good_row
  let case_date ← get_case_date c element
  let pacer_document_number ← get_pacer_document_number c element
  let document_number ← get_document_number element
  let description ← get_description element
  let nature_of_suit ← get_nos element column_count
  let cause ← get_cause element column_count
  Except.ok
    { court_id := court_id
      column_count := column_count
      pacer_case_id := pacer_case_id
      docket_number := docket_number
      case_name := case_name
      case_date := case_date
      pacer_document_number := pacer_document_number
      document_number := document_number
      description := description
      nature_of_suit := nature_of_suit
      cause := cause }

/-- Model of the instance dictionary of a constructed FreeOpinionRow object:
the attributes in assignment order, starting with the element and the
last good row. -/
def freeOpinionRow_dict (element : RowElem) (last_good_row : PyDict)
    (r : FreeOpinionRow) : PyDict :=
  [("element", PyValue.elem element),
   ("last_good_row", PyValue.dict last_good_row),
   ("court_id", PyValue.str r.court_id),
   ("column_count", PyValue.num r.column_count),
   ("pacer_case_id", r.pacer_case_id),
   ("docket_number", r.docket_number),
   ("case_name", r.case_name),
   ("case_date", r.case_date),
   ("pacer_document_number", r.pacer_document_number),
   ("document_number", r.document_number),
   ("description", r.description),
   ("nature_of_suit", r.nature_of_suit),
   ("cause", r.cause)]

/-- Model of FreeOpinionRow.as_dict: the instance dictionary with the element
and last good row entries filtered out. -/
def as_dict (element : RowElem) (last_good_row : PyDict) (r : FreeOpinionRow) : PyDict :=
  (freeOpinionRow_dict element last_good_row r).filter
    (fun kv => !((["element", "last_good_row"] : List String).contains kv.1))

/-- Model of an HTTP GET request as issued by the token fetch: url, user
agent header, TLS verification flag, timeout in seconds. -/
structure GetReq where
  url : String
  user_agent : String
  verify : Bool
  timeout : Nat
  deriving Repr, DecidableEq

/-- Model of an HTTP POST request as issued by the per-day report submission:
url (report url with the token appended after a question mark), user agent
header, TLS verification flag, timeout in seconds, multipart form fields in
order. -/
structure PostReq where
  url : String
  user_agent : String
  verify : Bool
  timeout : Nat
  files : List (String × String)
  deriving Repr, DecidableEq

/-- An HTTP call performed by the dispatcher, recorded in issue order. -/
inductive HttpCall where
  | get (r : GetReq)
  | post (r : PostReq)
  deriving Repr, DecidableEq

/-- Decide whether a recorded HTTP call is a form submission. -/
def HttpCall.is_post : HttpCall → Bool
  | HttpCall.get _ => false
  | HttpCall.post _ => true

/-- Model of one raw report response as consumed by the assembler. The
response-to-tree helpers (encoding fix, HTML cleaning, parsing, link
rewriting) live outside this source tree; the response is therefore modelled
by the observations the assembler extracts from the parsed tree: `ok` models
a non-error HTTP status (raise_for_status), `count_tails` the tail text of
each bold element whose text contains the total-number-of-opinions marker,
and `rows` the data rows of the first table (header row already skipped by
the xpath position predicate). -/
structure PageResponse where
  url : String
  ok : Bool
  count_tails : List String
  rows : List RowElem
  deriving Repr

/-- Model of the HTTP session: an oracle giving the text of a GET response
and the response value of a POST. -/
structure HttpSession where
  get_text : GetReq → String
  post_response : PostReq → PageResponse

/-- Model of make_written_report_url: the one irregular court uses a distinct
path, all others the uniform template. -/
def make_written_report_url (court_id : String) : String :=
  if court_id = "ohnd" then
    "https://ecf.ohnd.uscourts.gov/cgi-bin/OHND_WrtOpRpt.pl"
  else
    "https://ecf." ++ court_id ++ ".uscourts.gov/cgi-bin/WrtOpRpt.pl"

/-- The GET request built by get_written_report_token: report url, the fixed
user agent, per-court TLS policy, timeout 450. -/
def written_report_get_req (c : Collab) (court_id : String) : GetReq :=
  { url := make_written_report_url court_id
    user_agent := "Juriscraper"
    verify := c.verify_court_ssl court_id
    timeout := 450 }

/-- Model of get_written_report_token: issue the GET and search the response
text for the token pattern; the token when matched, else None (no exception).
Returns the extracted token together with the list of HTTP calls issued. -/
def get_written_report_token (c : Collab) (http : HttpSession) (court_id : String) :
    Option String × List HttpCall :=
  let req := written_report_get_req c court_id
  let text := http.get_text req
  (c.re_search_wrtoprpt text, [HttpCall.get req])

/-- Model of the dateutil call rrule(DAILY, interval one, dtstart, until):
the day ordinals dtstart, dtstart plus one, ..., up to and including the
until bound; empty when the until bound is before dtstart. -/
def rrule_daily (dtstart untl : Nat) : List Nat :=
  (List.range (untl + 1 - dtstart)).map (fun i => dtstart + i)

/-- The POST request built for one day of the report query: report url with
the token appended, fixed user agent, per-court TLS policy, timeout 300, and
the multipart fields with the day as both the filed-from and filed-to bound,
plus the fixed flags. -/
def day_post_req (c : Collab) (court_id written_report_url tok d : String) : PostReq :=
  { url := written_report_url ++ "?" ++ tok
    user_agent := "Juriscraper"
    verify := c.verify_court_ssl court_id
    timeout := 300
    files := [("filed_from", d), ("filed_to", d), ("ShowFull", "1"),
              ("Key1", "cs_sort_case_numb"), ("all_case_ids", "0")] }

/-- Model of the per-day loop of query_free_documents_report. A missing token
(None) makes the url concatenation of the first iteration raise a TypeError
before any POST is issued; otherwise one POST per day is issued in order and
its response collected. Returns the outcome with the list of HTTP calls. -/
def post_days (c : Collab) (http : HttpSession) (court_id written_report_url : String)
    (csrf_token : Option String) :
    List String → Except PyErr (List PageResponse) × List HttpCall
  | [] => (Except.ok [], [])
  | d :: rest =>
      match csrf_token with
      | none => (Except.error PyErr.typeError, [])
      | some tok =>
          let req := day_post_req c court_id written_report_url tok d
          let r := http.post_response req
          let pd := post_days c http court_id written_report_url (some tok) rest
          (pd.1.map (fun rs => r :: rs), HttpCall.post req :: pd.2)

/-- The fixed set of courts that do not provide the written opinions report. -/
def written_report_unavailable_courts : List String :=
  ["casb", "innb", "mieb", "miwb", "ohsb"]

/-- Model of query_free_documents_report: return an empty list at once for an
unavailable court; otherwise fetch the token and issue one POST per day of
the inclusive range, collecting the responses in date order. The second
component records every HTTP call issued, in order. -/
def query_free_documents_report (c : Collab) (http : HttpSession) (court_id : String)
    (start finish : Nat) (_cookie : String × String) :
    Except PyErr (List PageResponse) × List HttpCall :=
  if court_id ∈ written_report_unavailable_courts then
    (Except.ok [], [])
  else
    let written_report_url := make_written_report_url court_id
    let tk := get_written_report_token c http court_id
    let dates := (rrule_daily start finish).map c.strftime_mdY
    let pd := post_days c http court_id written_report_url tk.1 dates
    (pd.1, tk.2 ++ pd.2)

/-- Model of the row loop of parse_written_opinions_report: parse each row,
passing the previous result dictionary when the accumulated results are
nonempty and the empty dictionary otherwise, and append the as_dict of the
parsed row. -/
def rowLoop (c : Collab) (court_id : String) :
    List RowElem → List PyDict → Except PyErr (List PyDict)
  | [], results => Except.ok results
  | row :: rest, results =>
      if results.isEmpty then
        match free_opinion_row c row [] court_id with
        | Except.error e => Except.error e
        | Except.ok rcd => rowLoop c court_id rest (results ++ [as_dict row [] rcd])
      else
        match free_opinion_row c row (results.getLastD []) court_id with
        | Except.error e => Except.error e
        | Except.ok rcd =>
            rowLoop c court_id rest (results ++ [as_dict row (results.getLastD []) rcd])

/-- Model of the response loop of parse_written_opinions_report: for each
response raise on an error status, read the total-opinion-count marker,
skip the response when the count is zero, else run the row loop on the
accumulated results. -/
def assembleAux (c : Collab) :
    List PageResponse → List PyDict → Except PyErr (List PyDict)
  | [], results => Except.ok results
  | r :: rest, results =>
      if r.ok then
        let court_id := c.get_court_id_from_url r.url
        match pyIndex r.count_tails 0 with
        | Except.error e => Except.error e
        | Except.ok tl =>
            match pyInt tl with
            | Except.error e => Except.error e
            | Except.ok opinion_count =>
                if opinion_count = 0 then assembleAux c rest results
                else
                  match rowLoop c court_id r.rows results with
                  | Except.error e => Except.error e
                  | Except.ok results2 => assembleAux c rest results2
      else Except.error PyErr.httpError

/-- Model of parse_written_opinions_report: fold the responses in order over
an initially empty result list. -/
def parse_written_opinions_report (c : Collab) (responses : List PageResponse) :
    Except PyErr (List PyDict) :=
  assembleAux c responses []

/-- Concrete collaborator instance used to evaluate the model at concrete
inputs: the extractors are identities, TLS verification is on, the token
search always matches the sample token of the source docstring, and day
ordinals print as decimal strings. The theorems quantify over every
collaborator; this instance only instantiates them. -/
def defaultCollab : Collab :=
  { get_pacer_case_id_from_docket_url := fun u => u
    get_pacer_document_number_from_doc1_url := fun u => u
    convert_date_string := fun s => s
    get_court_id_from_url := fun u => u
    verify_court_ssl := fun _ => true
    re_search_wrtoprpt := fun _ => some "196235599000508-L_1_0-1"
    strftime_mdY := fun n => toString n }

/-- Collaborator instance whose token search never matches. -/
def noTokenCollab : Collab :=
  { defaultCollab with re_search_wrtoprpt := fun _ => none }

/-- Concrete HTTP session oracle returning fixed values. -/
def constHttp : HttpSession :=
  { get_text := fun _ => "page"
    post_response := fun _ => { url := "https://ecf.cand.uscourts.gov/x", ok := true,
                                count_tails := ["0"], rows := [] } }

/-- Concrete five-cell row for the areb court: the first cell packs docket and
case name, the fifth cell carries NOS and Cause markers with tail text. -/
def nosRowAreb : RowElem :=
  [{ hrefs := ["https://ecf.areb.uscourts.gov/cgi-bin/DktRpt.pl?12345"],
     anchor_texts := ["14-90018 Stewart v. Kauanui"],
     bold_texts := [],
     texts := ["14-90018 Stewart v. Kauanui"],
     text_content := "14-90018 Stewart v. Kauanui",
     nos_tails := [], cause_tails := [] },
   { hrefs := [], anchor_texts := [], bold_texts := [], texts := ["12/31/2008"],
     text_content := "12/31/2008", nos_tails := [], cause_tails := [] },
   { hrefs := ["https://ecf.areb.uscourts.gov/doc1/02801"], anchor_texts := ["128"],
     bold_texts := [], texts := ["128"], text_content := "128",
     nos_tails := [], cause_tails := [] },
   { hrefs := [], anchor_texts := [], bold_texts := [], texts := ["Memorandum"],
     text_content := "Memorandum", nos_tails := [], cause_tails := [] },
   { hrefs := [], anchor_texts := [], bold_texts := [], texts := [],
     text_content := "NOS 840 Trademark", nos_tails := [" 840 Trademark"],
     cause_tails := [" 15:1126 Trademark Infringement"] }]

/-- Concrete fully-populated five-column row for a regular court. -/
def fullRowCand : RowElem :=
  [{ hrefs := ["https://ecf.cand.uscourts.gov/cgi-bin/DktRpt.pl?55"],
     anchor_texts := ["16-123"], bold_texts := ["Foo v Bar"],
     texts := ["16-123", "Foo v Bar"], text_content := "16-123 Foo v Bar",
     nos_tails := [], cause_tails := [] },
   { hrefs := [], anchor_texts := [], bold_texts := [], texts := ["10/01/2017"],
     text_content := "10/01/2017", nos_tails := [], cause_tails := [] },
   { hrefs := ["https://ecf.cand.uscourts.gov/doc1/99"], anchor_texts := ["5"],
     bold_texts := [], texts := ["5"], text_content := "5",
     nos_tails := [], cause_tails := [] },
   { hrefs := [], anchor_texts := [], bold_texts := [], texts := ["Order"],
     text_content := "Order", nos_tails := [], cause_tails := [] },
   { hrefs := [], anchor_texts := [], bold_texts := [], texts := [],
     text_content := "NOS 890 Other", nos_tails := [" 890 Other"],
     cause_tails := [" 28:1331"] }]

/-- Concrete blank first cell: no link, no anchor text, no bold element and
only whitespace text. -/
def blankTd : TdCell :=
  { hrefs := [], anchor_texts := [], bold_texts := [], texts := [" "],
    text_content := " ", nos_tails := [], cause_tails := [] }

/-- Concrete populated tail cells following a blank first cell. -/
def blankRowTail : List TdCell :=
  [{ hrefs := [], anchor_texts := [], bold_texts := [], texts := ["10/02/2017"],
     text_content := "10/02/2017", nos_tails := [], cause_tails := [] },
   { hrefs := ["https://ecf.cand.uscourts.gov/doc1/100"], anchor_texts := ["6"],
     bold_texts := [], texts := ["6"], text_content := "6",
     nos_tails := [], cause_tails := [] },
   { hrefs := [], anchor_texts := [], bold_texts := [], texts := ["Opinion"],
     text_content := "Opinion", nos_tails := [], cause_tails := [] },
   { hrefs := [], anchor_texts := [], bold_texts := [], texts := [],
     text_content := "", nos_tails := [], cause_tails := [] }]

/-- Concrete blank-first-cell row: the first cell has no link, no anchor text,
no bold element and only whitespace text; the remaining cells are populated. -/
def blankFirstCellRow : RowElem := blankTd :: blankRowTail

/-- The record parsed from the blank-first-cell row when the carry-forward
dictionary is the as_dict of prevRecord: the three identity fields are
inherited. -/
def blankRcd : FreeOpinionRow :=
  { court_id := "cand", column_count := 5
    pacer_case_id := PyValue.str "55"
    docket_number := PyValue.str "16-123"
    case_name := PyValue.str "Foo v Bar"
    case_date := PyValue.str "10/02/2017"
    pacer_document_number := PyValue.str "https://ecf.cand.uscourts.gov/doc1/100"
    document_number := PyValue.str "6"
    description := PyValue.str "Opinion"
    nature_of_suit := PyValue.pynone
    cause := PyValue.pynone }

/-- Concrete single-cell row whose text has no space, for the four-column
split failure. -/
def noSpaceTd : TdCell :=
  { hrefs := ["https://ecf.areb.uscourts.gov/cgi-bin/DktRpt.pl?7"],
    anchor_texts := ["12-3456"], bold_texts := [], texts := ["12-3456"],
    text_content := "12-3456", nos_tails := [], cause_tails := [] }

/-- Concrete record standing for a previously produced fully-populated row. -/
def prevRecord : FreeOpinionRow :=
  { court_id := "cand", column_count := 5,
    pacer_case_id := PyValue.str "55",
    docket_number := PyValue.str "16-123",
    case_name := PyValue.str "Foo v Bar",
    case_date := PyValue.str "10/01/2017",
    pacer_document_number := PyValue.str "99",
    document_number := PyValue.str "5",
    description := PyValue.str "Order",
    nature_of_suit := PyValue.str "890 Other",
    cause := PyValue.str "28:1331" }

/-- Concrete well-formed response carrying one result row. -/
def oneRowResp : PageResponse :=
  { url := "cand", ok := true, count_tails := ["1"], rows := [fullRowCand] }

/-- Concrete zero-count response whose result table is malformed: its only
row has no cells at all, so parsing it would raise. -/
def zeroCountResp : PageResponse :=
  { url := "cand", ok := true, count_tails := ["0"], rows := [[]] }

/-- The record dictionary the assembler produces for the one-row response
under the concrete collaborators. -/
def oneRowDict : PyDict :=
  [("court_id", PyValue.str "cand"),
   ("column_count", PyValue.num 5),
   ("pacer_case_id", PyValue.str "https://ecf.cand.uscourts.gov/cgi-bin/DktRpt.pl?55"),
   ("docket_number", PyValue.str "16-123"),
   ("case_name", PyValue.str "Foo v Bar"),
   ("case_date", PyValue.str "10/01/2017"),
   ("pacer_document_number", PyValue.str "https://ecf.cand.uscourts.gov/doc1/99"),
   ("document_number", PyValue.str "5"),
   ("description", PyValue.str "Order"),
   ("nature_of_suit", PyValue.str "890 Other"),
   ("cause", PyValue.str "28:1331")]

/-- The record parsed from the concrete areb row: despite the court being in
the override set, the fifth cell markers are parsed because the column count
is five. -/
def expectedAreb : FreeOpinionRow :=
  { court_id := "areb", column_count := 5
    pacer_case_id := PyValue.str "https://ecf.areb.uscourts.gov/cgi-bin/DktRpt.pl?12345"
    docket_number := PyValue.str "14-90018"
    case_name := PyValue.str "Stewart v. Kauanui"
    case_date := PyValue.str "12/31/2008"
    pacer_document_number := PyValue.str "https://ecf.areb.uscourts.gov/doc1/02801"
    document_number := PyValue.str "128"
    description := PyValue.str "Memorandum"
    nature_of_suit := PyValue.str "840 Trademark"
    cause := PyValue.str "15:1126 Trademark Infringement" }

/-- The attribute keys of every record dictionary the assembler emits, in
assignment order. -/
def record_dict_keys : List String :=
  ["court_id", "column_count", "pacer_case_id", "docket_number", "case_name",
   "case_date", "pacer_document_number", "document_number", "description",
   "nature_of_suit", "cause"]

lemma exceptBind_ok {α β : Type} (x : Except PyErr α) (f : α → Except PyErr β) (b : β) :
    x >>= f = Except.ok b ↔ ∃ a, x = Except.ok a ∧ f a = Except.ok b := by
  cases x <;> simp [Bind.bind, Except.bind]

lemma pyIndex_head {α : Type} {l : List α} {a : α} (h : l.head? = some a) :
    pyIndex l 0 = Except.ok a := by
  cases l with
  | nil => simp at h
  | cons x xs =>
      simp only [List.head?_cons, Option.some.injEq] at h
      subst h
      rfl

lemma pyIndex_nil {α : Type} (i : Nat) : pyIndex ([] : List α) i = Except.error PyErr.indexError := by
  cases i <;> rfl

/-- Decompose a successful row construction into the outcome of each getter. -/
lemma free_opinion_row_ok {c : Collab} {element : RowElem} {last_good_row : PyDict}
    {court_id : String} {rcd : FreeOpinionRow}
    (h : free_opinion_row c element last_good_row court_id = Except.ok rcd) :
    get_pacer_case_id c element last_good_row = Except.ok rcd.pacer_case_id ∧
    get_docket_number element court_id element.length last_good_row = Except.ok rcd.docket_number ∧
    get_case_name element court_id element.length last_good_row = Except.ok rcd.case_name ∧
    get_case_date c element = Except.ok rcd.case_date ∧
    get_pacer_document_number c element = Except.ok rcd.pacer_document_number ∧
    get_document_number element = Except.ok rcd.document_number ∧
    get_description element = Except.ok rcd.description ∧
    get_nos element element.length = Except.ok rcd.nature_of_suit ∧
    get_cause element element.length = Except.ok rcd.cause ∧
    rcd.court_id = court_id ∧
    rcd.column_count = element.length := by
  simp only [free_opinion_row, get_column_count] at h
  obtain ⟨v1, h1, h⟩ := (exceptBind_ok _ _ _).mp h
  obtain ⟨v2, h2, h⟩ := (exceptBind_ok _ _ _).mp h
  obtain ⟨v3, h3, h⟩ := (exceptBind_ok _ _ _).mp h
  obtain ⟨v4, h4, h⟩ := (exceptBind_ok _ _ _).mp h
  obtain ⟨v5, h5, h⟩ := (exceptBind_ok _ _ _).mp h
  obtain ⟨v6, h6, h⟩ := (exceptBind_ok _ _ _).mp h
  obtain ⟨v7, h7, h⟩ := (exceptBind_ok _ _ _).mp h
  obtain ⟨v8, h8, h⟩ := (exceptBind_ok _ _ _).mp h
  obtain ⟨v9, h9, h⟩ := (exceptBind_ok _ _ _).mp h
  have hrcd := Except.ok.inj h
  subst hrcd
  exact ⟨h1, h2, h3, h4, h5, h6, h7, h8, h9, rfl, rfl⟩

lemma as_dict_pacer_case_id (e : RowElem) (lgr : PyDict) (r : FreeOpinionRow) :
    dictGet (as_dict e lgr r) "pacer_case_id" = Except.ok r.pacer_case_id := rfl

lemma as_dict_docket_number (e : RowElem) (lgr : PyDict) (r : FreeOpinionRow) :
    dictGet (as_dict e lgr r) "docket_number" = Except.ok r.docket_number := rfl

lemma as_dict_case_name (e : RowElem) (lgr : PyDict) (r : FreeOpinionRow) :
    dictGet (as_dict e lgr r) "case_name" = Except.ok r.case_name := rfl

lemma as_dict_keys (e : RowElem) (lgr : PyDict) (r : FreeOpinionRow) :
    (as_dict e lgr r).map Prod.fst = record_dict_keys := rfl

/-- C1: a table row whose first cell is blank (no link target, no anchor text,
no bold element, and empty stripped text content), parsed with the dictionary
of a previously produced record R as the last good row, inherits
pacer_case_id, docket_number and case_name verbatim from R whenever it
produces a record at all. -/
theorem c1_blank_cell_inherits (c : Collab) (td1 : TdCell) (rest : List TdCell)
    (prev_element : RowElem) (prev_lgr : PyDict) (R : FreeOpinionRow)
    (court_id : String) (rcd : FreeOpinionRow)
    (hhref : td1.hrefs = []) (hanchor : td1.anchor_texts = [])
    (hbold : td1.bold_texts = []) (htext : pyStrip td1.text_content = "")
    (h : free_opinion_row c (td1 :: rest) (as_dict prev_element prev_lgr R) court_id =
      Except.ok rcd) :
    rcd.pacer_case_id = R.pacer_case_id ∧
    rcd.docket_number = R.docket_number ∧
    rcd.case_name = R.case_name := by
  obtain ⟨h1, h2, h3, -⟩ := free_opinion_row_ok h
  refine ⟨?_, ?_, ?_⟩
  · have e1 : get_pacer_case_id c (td1 :: rest) (as_dict prev_element prev_lgr R) =
        Except.ok R.pacer_case_id := by
      simp only [get_pacer_case_id, td_xpath_lists, List.get?, hhref, pyIndex]
      exact as_dict_pacer_case_id _ _ _
    exact Except.ok.inj (h1.symm.trans e1)
  · have e2 : get_docket_number (td1 :: rest) court_id (td1 :: rest).length
        (as_dict prev_element prev_lgr R) = Except.ok R.docket_number := by
      simp only [get_docket_number, td_xpath_lists, List.get?, hanchor, pyIndex]
      exact as_dict_docket_number _ _ _
    exact Except.ok.inj (h2.symm.trans e2)
  · have e3 : get_case_name (td1 :: rest) court_id (td1 :: rest).length
        (as_dict prev_element prev_lgr R) = Except.ok R.case_name := by
      by_cases hc : ((td1 :: rest) : RowElem).length = 4 ∨
          court_id ∈ (["areb", "arwb"] : List String)
      · simp only [get_case_name, td_xpath, List.get?, pyIndex, if_pos hc, htext]
        simp only [ne_eq, not_true_eq_false, if_false]
        exact as_dict_case_name _ _ _
      · simp only [get_case_name, td_xpath, List.get?, pyIndex, if_neg hc, hbold]
        exact as_dict_case_name _ _ _
    exact Except.ok.inj (h3.symm.trans e3)

/-- C1 witness: the concrete blank-first-cell row parsed after prevRecord
yields a record whose three identity fields equal those of prevRecord. -/
theorem c1_blank_cell_inherits_witness :
    blankRcd.pacer_case_id = prevRecord.pacer_case_id ∧
    blankRcd.docket_number = prevRecord.docket_number ∧
    blankRcd.case_name = prevRecord.case_name :=
  c1_blank_cell_inherits defaultCollab blankTd blankRowTail fullRowCand [] prevRecord
    "cand" blankRcd rfl rfl rfl rfl rfl

/-- C2 counterexample: the concrete five-cell areb row, whose jurisdiction is
in the override set, parses to a record whose nature_of_suit and cause are
present, refuting the claim that override-set rows never yield them. -/
theorem c2_schema_counterexample :
    "areb" ∈ (["areb", "arwb"] : List String) ∧
    free_opinion_row defaultCollab nosRowAreb [] "areb" = Except.ok expectedAreb ∧
    expectedAreb.nature_of_suit = PyValue.str "840 Trademark" ∧
    expectedAreb.cause = PyValue.str "15:1126 Trademark Infringement" ∧
    ¬(expectedAreb.nature_of_suit = PyValue.pynone ∧ expectedAreb.cause = PyValue.pynone) := by
  refine ⟨by decide, rfl, rfl, rfl, ?_⟩
  intro hcontra
  exact PyValue.noConfusion hcontra.1

/-- C2 amended: the column count alone controls nature_of_suit and cause.
A row with exactly 4 td elements never yields them; a row with 5 td elements
(regardless of jurisdiction, including the override set areb and arwb) parses
each of them whenever the corresponding marker is present in the fifth cell. -/
theorem c2_schema_amended (c : Collab) (element : RowElem) (lgr : PyDict)
    (court_id : String) (rcd : FreeOpinionRow)
    (h : free_opinion_row c element lgr court_id = Except.ok rcd) :
    (element.length = 4 → rcd.nature_of_suit = PyValue.pynone ∧ rcd.cause = PyValue.pynone) ∧
    (∀ t, element.length = 5 →
      (td_xpath_lists element 5 TdCell.nos_tails).head? = some t →
      rcd.nature_of_suit = PyValue.str (pyStrip t)) ∧
    (∀ t, element.length = 5 →
      (td_xpath_lists element 5 TdCell.cause_tails).head? = some t →
      rcd.cause = PyValue.str (pyStrip t)) := by
  obtain ⟨-, -, -, -, -, -, -, h8, h9, -, -⟩ := free_opinion_row_ok h
  refine ⟨?_, ?_, ?_⟩
  · intro h4
    rw [h4] at h8 h9
    have e8 : get_nos element 4 = Except.ok PyValue.pynone := by simp [get_nos]
    have e9 : get_cause element 4 = Except.ok PyValue.pynone := by simp [get_cause]
    exact ⟨Except.ok.inj (h8.symm.trans e8), Except.ok.inj (h9.symm.trans e9)⟩
  · intro t h5 ht
    rw [h5] at h8
    have e8 : get_nos element 5 = Except.ok (PyValue.str (pyStrip t)) := by
      have hp := pyIndex_head ht
      simp [get_nos, hp]
    exact Except.ok.inj (h8.symm.trans e8)
  · intro t h5 ht
    rw [h5] at h9
    have e9 : get_cause element 5 = Except.ok (PyValue.str (pyStrip t)) := by
      have hp := pyIndex_head ht
      simp [get_cause, hp]
    exact Except.ok.inj (h9.symm.trans e9)

/-- C2 amended witness: the concrete areb row discharges the hypotheses and
yields the stripped marker tails. -/
theorem c2_schema_amended_witness :
    free_opinion_row defaultCollab nosRowAreb [] "areb" = Except.ok expectedAreb ∧
    expectedAreb.nature_of_suit = PyValue.str (pyStrip " 840 Trademark") ∧
    expectedAreb.cause = PyValue.str (pyStrip " 15:1126 Trademark Infringement") :=
  ⟨rfl,
   (c2_schema_amended defaultCollab nosRowAreb [] "areb" expectedAreb rfl).2.1
     " 840 Trademark" rfl rfl,
   (c2_schema_amended defaultCollab nosRowAreb [] "areb" expectedAreb rfl).2.2
     " 15:1126 Trademark Infringement" rfl rfl⟩

lemma pySplitSpaceOnceAux_no_space (l acc : List Char) (h : ∀ ch ∈ l, ch ≠ ' ') :
    pySplitSpaceOnceAux l acc = [String.mk (acc.reverse ++ l)] := by
  induction l generalizing acc with
  | nil => simp [pySplitSpaceOnceAux]
  | cons ch rest ih =>
      have hch : ch ≠ ' ' := h ch (List.mem_cons_self _ _)
      rw [pySplitSpaceOnceAux, if_neg hch, ih _ (fun x hx => h x (List.mem_cons_of_mem _ hx))]
      simp

lemma pySplitSpaceOnce_no_space {s : String} (h : ∀ ch ∈ s.data, ch ≠ ' ') :
    pySplitSpaceOnce s = [s] := by
  rw [pySplitSpaceOnce, pySplitSpaceOnceAux_no_space _ _ h]
  rfl

/-- C10: a row treated under the four-column style whose first cell has
nonempty stripped text containing no space makes case-name extraction raise
an uncaught IndexError, so no record is produced and nothing is inherited. -/
theorem c10_no_space_crash (c : Collab) (td1 : TdCell) (rest : List TdCell)
    (lgr : PyDict) (court_id : String)
    (hstyle : ((td1 :: rest) : RowElem).length = 4 ∨
      court_id ∈ (["areb", "arwb"] : List String))
    (hne : pyStrip td1.text_content ≠ "")
    (hnospace : ∀ ch ∈ (pyStrip td1.text_content).data, ch ≠ ' ') :
    get_case_name (td1 :: rest) court_id ((td1 :: rest) : RowElem).length lgr =
      Except.error PyErr.indexError ∧
    ∀ rcd, free_opinion_row c (td1 :: rest) lgr court_id ≠ Except.ok rcd := by
  have hmain : get_case_name (td1 :: rest) court_id ((td1 :: rest) : RowElem).length lgr =
      Except.error PyErr.indexError := by
    simp only [get_case_name, td_xpath, List.get?, pyIndex, if_pos hstyle]
    rw [if_pos hne, pySplitSpaceOnce_no_space hnospace]
    rfl
  refine ⟨hmain, ?_⟩
  intro rcd hok
  obtain ⟨-, -, h3, -⟩ := free_opinion_row_ok hok
  rw [hmain] at h3
  exact Except.noConfusion h3

/-- C10 witness: the concrete no-space first cell under the areb override. -/
theorem c10_no_space_crash_witness :
    pyStrip noSpaceTd.text_content ≠ "" ∧
    get_case_name [noSpaceTd] "areb" (([noSpaceTd] : RowElem)).length [] =
      Except.error PyErr.indexError :=
  ⟨by decide,
   (c10_no_space_crash defaultCollab noSpaceTd [] [] "areb" (Or.inr (by decide))
     (by decide) (by decide)).1⟩

/-- C6: dispatch for a jurisdiction in the fixed unsupported set returns an
empty list and records zero HTTP calls. -/
theorem c6_unsupported_no_network (c : Collab) (http : HttpSession) (court_id : String)
    (start finish : Nat) (cookie : String × String)
    (h : court_id ∈ written_report_unavailable_courts) :
    query_free_documents_report c http court_id start finish cookie = (Except.ok [], []) := by
  simp [query_free_documents_report, h]

/-- C6 witness: the concrete unsupported court casb. -/
theorem c6_unsupported_no_network_witness :
    "casb" ∈ written_report_unavailable_courts ∧
    query_free_documents_report defaultCollab constHttp "casb" 3 5 ("k", "v") =
      (Except.ok [], []) :=
  ⟨by decide,
   c6_unsupported_no_network defaultCollab constHttp "casb" 3 5 ("k", "v") (by decide)⟩

lemma rrule_daily_length (s f : Nat) : (rrule_daily s f).length = f + 1 - s := by
  simp [rrule_daily]

lemma rrule_daily_get (s f i : Nat) (h : i < (rrule_daily s f).length) :
    (rrule_daily s f)[i] = s + i := by
  simp [rrule_daily]

lemma post_days_some (c : Collab) (http : HttpSession) (court_id url tok : String)
    (ds : List String) :
    post_days c http court_id url (some tok) ds =
      (Except.ok (ds.map (fun d => http.post_response (day_post_req c court_id url tok d))),
       ds.map (fun d => HttpCall.post (day_post_req c court_id url tok d))) := by
  induction ds with
  | nil => rfl
  | cons d rest ih => simp [post_days, ih, Except.map]

/-- C3: for a supported court whose token extraction succeeds, the inclusive
day range has length N equal to the number of days, its entries ascend one
day at a time, every per-day form submission carries the day as both the
filed-from and filed-to bound, and the dispatcher issues exactly one POST per
day and returns exactly one response per day, both in ascending date order. -/
theorem c3_day_chunking (c : Collab) (http : HttpSession) (court_id : String)
    (start finish : Nat) (cookie : String × String) (tok : String)
    (hcourt : court_id ∉ written_report_unavailable_courts)
    (htok : c.re_search_wrtoprpt (http.get_text (written_report_get_req c court_id)) = some tok)
    (_hle : start ≤ finish) :
    (rrule_daily start finish).length = finish + 1 - start ∧
    (∀ i, ∀ h : i < (rrule_daily start finish).length, (rrule_daily start finish)[i] = start + i) ∧
    (∀ d, (day_post_req c court_id (make_written_report_url court_id) tok d).files =
      [("filed_from", d), ("filed_to", d), ("ShowFull", "1"),
       ("Key1", "cs_sort_case_numb"), ("all_case_ids", "0")]) ∧
    query_free_documents_report c http court_id start finish cookie =
      (Except.ok ((rrule_daily start finish).map (fun day =>
         http.post_response (day_post_req c court_id (make_written_report_url court_id) tok
           (c.strftime_mdY day)))),
       HttpCall.get (written_report_get_req c court_id) ::
         (rrule_daily start finish).map (fun day =>
           HttpCall.post (day_post_req c court_id (make_written_report_url court_id) tok
             (c.strftime_mdY day)))) := by
  refine ⟨rrule_daily_length _ _, fun i h => rrule_daily_get _ _ _ h, fun d => rfl, ?_⟩
  simp [query_free_documents_report, if_neg hcourt, get_written_report_token, htok,
    post_days_some, List.map_map, Function.comp]

/-- C3 witness: a concrete three-day query against the constant session. -/
theorem c3_day_chunking_witness :
    (rrule_daily 3 5).length = 5 + 1 - 3 ∧
    query_free_documents_report defaultCollab constHttp "cand" 3 5 ("k", "v") =
      (Except.ok ((rrule_daily 3 5).map (fun day =>
         constHttp.post_response (day_post_req defaultCollab "cand"
           (make_written_report_url "cand") "196235599000508-L_1_0-1"
           (defaultCollab.strftime_mdY day)))),
       HttpCall.get (written_report_get_req defaultCollab "cand") ::
         (rrule_daily 3 5).map (fun day =>
           HttpCall.post (day_post_req defaultCollab "cand"
             (make_written_report_url "cand") "196235599000508-L_1_0-1"
             (defaultCollab.strftime_mdY day)))) :=
  ⟨(c3_day_chunking defaultCollab constHttp "cand" 3 5 ("k", "v") "196235599000508-L_1_0-1"
      (by decide) rfl (by decide)).1,
   (c3_day_chunking defaultCollab constHttp "cand" 3 5 ("k", "v") "196235599000508-L_1_0-1"
      (by decide) rfl (by decide)).2.2.2⟩

lemma post_days_none_calls (c : Collab) (http : HttpSession) (court_id url : String)
    (ds : List String) :
    (post_days c http court_id url none ds).2 = [] := by
  cases ds <;> rfl

lemma post_days_none_fst_cons (c : Collab) (http : HttpSession) (court_id url d : String)
    (rest : List String) :
    (post_days c http court_id url none (d :: rest)).1 = Except.error PyErr.typeError := rfl

lemma rrule_daily_ne_nil {s f : Nat} (hle : s ≤ f) : rrule_daily s f ≠ [] := by
  intro hnil
  have hlen := rrule_daily_length s f
  rw [hnil] at hlen
  simp at hlen
  omega

/-- C4: when the token pattern does not match, the acquirer returns None
rather than raising, every HTTP call the dispatcher records is the single
token GET (no POST is ever issued), and for a supported court with at least
one day in range the dispatch propagates a fatal TypeError. -/
theorem c4_token_failure (c : Collab) (http : HttpSession) (court_id : String)
    (start finish : Nat) (cookie : String × String)
    (htok : c.re_search_wrtoprpt (http.get_text (written_report_get_req c court_id)) = none) :
    (get_written_report_token c http court_id).1 = none ∧
    (∀ call ∈ (query_free_documents_report c http court_id start finish cookie).2,
      call.is_post = false) ∧
    (court_id ∉ written_report_unavailable_courts → start ≤ finish →
      (query_free_documents_report c http court_id start finish cookie).1 =
        Except.error PyErr.typeError) := by
  have htok1 : (get_written_report_token c http court_id).1 = none := by
    simp [get_written_report_token, htok]
  refine ⟨htok1, ?_, ?_⟩
  · intro call hc
    by_cases hcourt : court_id ∈ written_report_unavailable_courts
    · simp [query_free_documents_report, hcourt] at hc
    · simp only [query_free_documents_report, if_neg hcourt] at hc
      rw [htok1, post_days_none_calls] at hc
      simp only [get_written_report_token, List.append_nil] at hc
      rcases List.mem_singleton.mp hc with rfl
      rfl
  · intro hcourt hle
    simp only [query_free_documents_report, if_neg hcourt]
    rw [htok1]
    rcases hds : (rrule_daily start finish).map c.strftime_mdY with _ | ⟨d, rest⟩
    · exact absurd (List.map_eq_nil_iff.mp hds) (rrule_daily_ne_nil hle)
    · exact post_days_none_fst_cons c http court_id (make_written_report_url court_id) d rest

/-- C4 witness: the no-match collaborator over a supported court and a
nonempty range. -/
theorem c4_token_failure_witness :
    (get_written_report_token noTokenCollab constHttp "cand").1 = none ∧
    (query_free_documents_report noTokenCollab constHttp "cand" 3 5 ("k", "v")).1 =
      Except.error PyErr.typeError :=
  ⟨(c4_token_failure noTokenCollab constHttp "cand" 3 5 ("k", "v") rfl).1,
   (c4_token_failure noTokenCollab constHttp "cand" 3 5 ("k", "v") rfl).2.2
     (by decide) (by decide)⟩

lemma post_days_calls_are_posts (c : Collab) (http : HttpSession) (court_id url : String)
    (tk : Option String) (ds : List String) :
    ∀ call ∈ (post_days c http court_id url tk ds).2,
      ∃ pr, call = HttpCall.post pr ∧ pr.timeout = 300 := by
  induction ds with
  | nil => simp [post_days]
  | cons d rest ih =>
      cases tk with
      | none => simp [post_days]
      | some tok =>
          intro call hc
          simp only [post_days, List.mem_cons] at hc
          rcases hc with rfl | hc
          · exact ⟨day_post_req c court_id url tok d, rfl, rfl⟩
          · exact ih call hc

lemma query_calls_shape (c : Collab) (http : HttpSession) (court_id : String)
    (start finish : Nat) (cookie : String × String) :
    ∀ call ∈ (query_free_documents_report c http court_id start finish cookie).2,
      (call = HttpCall.get (written_report_get_req c court_id) ∧
        (written_report_get_req c court_id).timeout = 450) ∨
      ∃ pr, call = HttpCall.post pr ∧ pr.timeout = 300 := by
  intro call hc
  by_cases hcourt : court_id ∈ written_report_unavailable_courts
  · simp [query_free_documents_report, hcourt] at hc
  · simp only [query_free_documents_report, if_neg hcourt, get_written_report_token,
      List.cons_append, List.nil_append, List.mem_cons] at hc
    rcases hc with rfl | hc
    · exact Or.inl ⟨rfl, rfl⟩
    · exact Or.inr (post_days_calls_are_posts c http court_id _ _ _ call hc)

/-- C5 counterexample: in a concrete dispatched query the token GET uses
timeout 450 and the per-day POST uses timeout 300, so the GET bound is not
strictly shorter than the POST bound. -/
theorem c5_timeout_counterexample :
    HttpCall.get (written_report_get_req defaultCollab "cand") ∈
      (query_free_documents_report defaultCollab constHttp "cand" 7 7 ("k", "v")).2 ∧
    HttpCall.post (day_post_req defaultCollab "cand" (make_written_report_url "cand")
      "196235599000508-L_1_0-1" "7") ∈
      (query_free_documents_report defaultCollab constHttp "cand" 7 7 ("k", "v")).2 ∧
    (written_report_get_req defaultCollab "cand").timeout = 450 ∧
    (day_post_req defaultCollab "cand" (make_written_report_url "cand")
      "196235599000508-L_1_0-1" "7").timeout = 300 ∧
    ¬((written_report_get_req defaultCollab "cand").timeout <
      (day_post_req defaultCollab "cand" (make_written_report_url "cand")
        "196235599000508-L_1_0-1" "7").timeout) := by
  refine ⟨by decide, by decide, rfl, rfl, by decide⟩

/-- C5 amended: the timeout relationship is reversed from the claim: every
token-fetch GET of a dispatched query uses the bound 450 and every per-day
POST uses the bound 300, so each POST bound is strictly shorter than the GET
bound. -/
theorem c5_timeout_amended (c : Collab) (http : HttpSession) (court_id : String)
    (start finish : Nat) (cookie : String × String) (g : GetReq) (p : PostReq)
    (hg : HttpCall.get g ∈ (query_free_documents_report c http court_id start finish cookie).2)
    (hp : HttpCall.post p ∈ (query_free_documents_report c http court_id start finish cookie).2) :
    g.timeout = 450 ∧ p.timeout = 300 ∧ p.timeout < g.timeout := by
  rcases query_calls_shape c http court_id start finish cookie _ hg with ⟨hgeq, hgt⟩ | ⟨pr, hne, -⟩
  · rcases query_calls_shape c http court_id start finish cookie _ hp with ⟨hpe, -⟩ | ⟨pr, hpe, hpt⟩
    · exact HttpCall.noConfusion hpe
    · have hg450 : g.timeout = 450 := by
        have := HttpCall.get.inj hgeq
        rw [this]; exact hgt
      have hp300 : p.timeout = 300 := by
        have := HttpCall.post.inj hpe
        rw [this]; exact hpt
      exact ⟨hg450, hp300, by omega⟩
  · exact HttpCall.noConfusion hne

/-- C5 amended witness: the concrete one-day query of the counterexample. -/
theorem c5_timeout_amended_witness :
    (written_report_get_req defaultCollab "cand").timeout = 450 ∧
    (day_post_req defaultCollab "cand" (make_written_report_url "cand")
      "196235599000508-L_1_0-1" "7").timeout = 300 ∧
    (day_post_req defaultCollab "cand" (make_written_report_url "cand")
      "196235599000508-L_1_0-1" "7").timeout <
      (written_report_get_req defaultCollab "cand").timeout :=
  c5_timeout_amended defaultCollab constHttp "cand" 7 7 ("k", "v")
    (written_report_get_req defaultCollab "cand")
    (day_post_req defaultCollab "cand" (make_written_report_url "cand")
      "196235599000508-L_1_0-1" "7")
    (by decide) (by decide)

/-- C7: a response whose total-opinion-count marker parses to zero is skipped
entirely by the assembler: it contributes no records and raises nothing,
whatever its rows contain. -/
theorem c7_zero_count_short_circuit (c : Collab) (r : PageResponse)
    (rest : List PageResponse) (results : List PyDict) (t : String)
    (hok : r.ok = true) (ht : r.count_tails.head? = some t)
    (h0 : pyInt t = Except.ok 0) :
    assembleAux c (r :: rest) results = assembleAux c rest results := by
  have hp := pyIndex_head ht
  simp [assembleAux, hok, hp, h0]

/-- C7 witness: the concrete zero-count response whose only table row is
malformed (it has no cells); the assembly over it alone yields no records. -/
theorem c7_zero_count_short_circuit_witness :
    zeroCountResp.ok = true ∧
    zeroCountResp.count_tails.head? = some "0" ∧
    pyInt "0" = Except.ok 0 ∧
    assembleAux defaultCollab [zeroCountResp] [] = assembleAux defaultCollab [] [] :=
  ⟨rfl, rfl, rfl,
   c7_zero_count_short_circuit defaultCollab zeroCountResp [] [] "0" rfl rfl rfl⟩

/-- C8: the carry-forward accumulator spans the whole assembly. Processing a
concatenation of response lists threads the result list of the first part
into the second without reset, and each row is parsed against the most
recently appended record dictionary of the accumulated output (the empty
dictionary when there is none), appending its own dictionary as the new
carry-forward source. -/
theorem c8_carry_forward_scope :
    (∀ (c : Collab) (rs1 rs2 : List PageResponse) (acc : List PyDict),
      assembleAux c (rs1 ++ rs2) acc =
        (assembleAux c rs1 acc).bind (fun acc2 => assembleAux c rs2 acc2)) ∧
    (∀ (c : Collab) (court_id : String) (row : RowElem) (rest : List RowElem)
        (results : List PyDict),
      rowLoop c court_id (row :: rest) results =
        (free_opinion_row c row (results.getLastD []) court_id).bind
          (fun rcd => rowLoop c court_id rest
            (results ++ [as_dict row (results.getLastD []) rcd]))) := by
  constructor
  · intro c rs1 rs2 acc
    induction rs1 generalizing acc with
    | nil => simp [assembleAux, Except.bind]
    | cons r rest ih =>
        simp only [List.cons_append, assembleAux]
        by_cases hok : r.ok = true
        · simp only [hok, if_true]
          rcases hp : pyIndex r.count_tails 0 with e | tl
          · simp [hp, Except.bind]
          · simp only [hp]
            rcases hi : pyInt tl with e | n
            · simp [hi, Except.bind]
            · simp only [hi]
              by_cases hn : n = 0
              · simp [hn, ih]
              · rcases hr : rowLoop c (c.get_court_id_from_url r.url) r.rows acc with e | acc2
                · simp [hn, hr, Except.bind]
                · simp [hn, hr, ih, Except.bind]
        · simp [hok, Except.bind]
  · intro c court_id row rest results
    by_cases hres : results.isEmpty
    · have hnil : results = [] := List.isEmpty_iff.mp hres
      subst hnil
      have hlast : ([] : List PyDict).getLastD [] = [] := rfl
      simp only [rowLoop, List.isEmpty_nil, if_true, hlast]
      rcases hx : free_opinion_row c row [] court_id with e | rcd <;>
        simp [hx, Except.bind]
    · simp only [rowLoop, hres, if_false]
      rcases hx : free_opinion_row c row (results.getLastD []) court_id with e | rcd <;>
        simp [hx, Except.bind]

lemma rowLoop_cons_eq (c : Collab) (court_id : String) (row : RowElem)
    (rest : List RowElem) (results : List PyDict) :
    rowLoop c court_id (row :: rest) results =
      (free_opinion_row c row (results.getLastD []) court_id).bind
        (fun rcd => rowLoop c court_id rest
          (results ++ [as_dict row (results.getLastD []) rcd])) := by
  by_cases hres : results.isEmpty
  · have hnil : results = [] := List.isEmpty_iff.mp hres
    subst hnil
    have hlast : ([] : List PyDict).getLastD [] = [] := rfl
    simp only [rowLoop, List.isEmpty_nil, if_true, hlast]
    rcases hx : free_opinion_row c row [] court_id with e | rcd <;>
      simp [hx, Except.bind]
  · simp only [rowLoop, hres, if_false]
    rcases hx : free_opinion_row c row (results.getLastD []) court_id with e | rcd <;>
      simp [hx, Except.bind]

lemma rowLoop_keys (c : Collab) (court_id : String) (rows : List RowElem)
    (acc res : List PyDict) (h : rowLoop c court_id rows acc = Except.ok res) :
    ∀ d ∈ res, d ∈ acc ∨ d.map Prod.fst = record_dict_keys := by
  induction rows generalizing acc with
  | nil =>
      simp only [rowLoop, Except.ok.injEq] at h
      subst h
      exact fun d hd => Or.inl hd
  | cons row rest ih =>
      rw [rowLoop_cons_eq] at h
      rcases hx : free_opinion_row c row (acc.getLastD []) court_id with e | rcd
      · rw [hx] at h
        exact absurd h (by simp [Except.bind])
      · rw [hx] at h
        simp only [Except.bind] at h
        intro d hd
        rcases ih _ h d hd with hmem | hk
        · rcases List.mem_append.mp hmem with h1 | h2
          · exact Or.inl h1
          · rw [List.mem_singleton.mp h2]
            exact Or.inr (as_dict_keys _ _ _)
        · exact Or.inr hk

lemma assembleAux_keys (c : Collab) (rs : List PageResponse) (acc res : List PyDict)
    (h : assembleAux c rs acc = Except.ok res) :
    ∀ d ∈ res, d ∈ acc ∨ d.map Prod.fst = record_dict_keys := by
  induction rs generalizing acc with
  | nil =>
      simp only [assembleAux, Except.ok.injEq] at h
      subst h
      exact fun d hd => Or.inl hd
  | cons r rest ih =>
      simp only [assembleAux] at h
      by_cases hok : r.ok = true
      · rw [if_pos hok] at h
        rcases hp : pyIndex r.count_tails 0 with e | tl
        · rw [hp] at h
          exact absurd h (by simp)
        · simp only [hp] at h
          rcases hi : pyInt tl with e | n
          · simp only [hi] at h
            exact absurd h (by simp)
          · simp only [hi] at h
            by_cases hn : n = 0
            · rw [if_pos hn] at h
              exact ih _ h
            · rw [if_neg hn] at h
              rcases hr : rowLoop c (c.get_court_id_from_url r.url) r.rows acc with e | acc2
              · simp only [hr] at h
                exact absurd h (by simp)
              · simp only [hr] at h
                intro d hd
                rcases ih _ h d hd with hmem | hk
                · exact rowLoop_keys c _ r.rows acc acc2 hr d hmem
                · exact Or.inr hk
      · rw [if_neg hok] at h
        exact absurd h (by simp)

/-- C9: every record dictionary the assembler returns carries exactly the
eleven attribute keys (court_id, column_count, pacer_case_id, docket_number,
case_name, case_date, pacer_document_number, document_number, description,
nature_of_suit, cause), and never the raw element or the carry-forward row. -/
theorem c9_record_dict_keys (c : Collab) (responses : List PageResponse)
    (results : List PyDict)
    (h : parse_written_opinions_report c responses = Except.ok results)
    (d : PyDict) (hd : d ∈ results) :
    d.map Prod.fst = record_dict_keys ∧
    "element" ∉ d.map Prod.fst ∧ "last_good_row" ∉ d.map Prod.fst := by
  rcases assembleAux_keys c responses [] results h d hd with hmem | hk
  · simp at hmem
  · refine ⟨hk, ?_, ?_⟩ <;> rw [hk] <;> decide

/-- C9 witness: the concrete one-row response produces exactly one record
dictionary with exactly the eleven keys. -/
theorem c9_record_dict_keys_witness :
    parse_written_opinions_report defaultCollab [oneRowResp] = Except.ok [oneRowDict] ∧
    oneRowDict.map Prod.fst = record_dict_keys :=
  ⟨rfl,
   (c9_record_dict_keys defaultCollab [oneRowResp] [oneRowDict] rfl oneRowDict
     (List.mem_singleton.mpr rfl)).1⟩
